import Mathlib

/-!
Shallow embedding of the provider-abstraction layer of the sora-proxy
repository: the Azure upstream client (`AzureVideoProvider` in
`src/backend/src/video/providers/azure.video.provider.ts`) and the request
broker / OpenAI client (`OpenAIService` in the backend service file).

Upstream HTTP exchanges are modelled by an oracle `Upstream` mapping a
request (method and url) to either a JSON body or an error status; each
embedded operation returns its outcome together with the ordered trace of
requests it issued, so that probing order, short-circuiting and
"no upstream call was made" are all expressible.
-/

set_option autoImplicit false

namespace SoraProxy

/-- A JSON-like value, the payload type of upstream responses and of the
decoration function `addFailureReasonIfAny`. -/
inductive Json where
  | null
  | str (s : String)
  | num (n : Int)
  | bool (b : Bool)
  | obj (fields : List (String × Json))
  | arr (elems : List Json)

/-- Field lookup on an association list of JSON object fields
(JS property access: absent field reads as `undefined`, here `none`). -/
def lookupField : List (String × Json) → String → Option Json
  | [], _ => none
  | (k', v) :: rest, k => if k' = k then some v else lookupField rest k

/-- JS property access `j.k`: a field of an object, `undefined` otherwise. -/
def Json.get (j : Json) (k : String) : Option Json :=
  match j with
  | .obj fields => lookupField fields k
  | _ => none

/-- JS property assignment `obj.k = v` on an object's field list: overwrite
the first binding of `k`, or append it. -/
def setField : List (String × Json) → String → Json → List (String × Json)
  | [], k, v => [(k, v)]
  | (k', v') :: rest, k, v =>
      if k' = k then (k, v) :: rest else (k', v') :: setField rest k v

/-- JS truthiness of a JSON value. -/
def Json.truthy : Json → Bool
  | .null => false
  | .str s => s ≠ ""
  | .num n => n ≠ 0
  | .bool b => b
  | .obj _ => true
  | .arr _ => true

/-- JS `x == null` (nullish) for a possibly-absent value. -/
def jsNullish : Option Json → Bool
  | none => true
  | some .null => true
  | some _ => false

/-- JS truthiness of a possibly-absent value (`undefined` is falsy). -/
def jsTruthyOpt : Option Json → Bool
  | none => false
  | some j => j.truthy

mutual
/-- `JSON.stringify` restricted to our JSON model (string escaping elided). -/
def jsonStringify : Json → String
  | .null => "null"
  | .str s => "\"" ++ s ++ "\""
  | .num n => toString n
  | .bool b => if b then "true" else "false"
  | .obj fields => "\x7b" ++ stringifyFields fields ++ "\x7d"
  | .arr elems => "[" ++ stringifyElems elems ++ "]"

/-- Comma-separated `"key":value` renderings of object fields. -/
def stringifyFields : List (String × Json) → String
  | [] => ""
  | [(k, v)] => "\"" ++ k ++ "\":" ++ jsonStringify v
  | (k, v) :: rest => "\"" ++ k ++ "\":" ++ jsonStringify v ++ "," ++ stringifyFields rest

/-- Comma-separated renderings of array elements. -/
def stringifyElems : List Json → String
  | [] => ""
  | [v] => jsonStringify v
  | v :: rest => jsonStringify v ++ "," ++ stringifyElems rest
end

mutual
/-- JS `String(x)` / template-literal interpolation of a JSON value. -/
def Json.asString : Json → String
  | .null => "null"
  | .str s => s
  | .num n => toString n
  | .bool b => if b then "true" else "false"
  | .obj _ => "[object Object]"
  | .arr elems => jsonListAsString elems

/-- JS `Array.prototype.toString`: elements joined by commas. -/
def jsonListAsString : List Json → String
  | [] => ""
  | [v] => v.asString
  | v :: rest => v.asString ++ "," ++ jsonListAsString rest
end

/-- Embedding of `AzureVideoProvider.addFailureReasonIfAny`
(azure.video.provider.ts lines 43-65): on an object payload, synthesize an
`error` field from `failure_reason` / `failureReason` / `error` when a
message is found and the payload has no truthy `error` field already.
The JSON round-trip clone of the source is the identity on this model. -/
def addFailureReasonIfAny (payload : Json) : Json :=
  match payload with
  | .obj fields =>
      let failure : Option Json :=
        if jsNullish (lookupField fields "failure_reason") then
          lookupField fields "failureReason"
        else
          lookupField fields "failure_reason"
      let err : Option Json := lookupField fields "error"
      let message : Option String :=
        if ¬ jsNullish failure then
          match failure with
          | some (.str s) => some s
          | some f =>
              match f.get "message" with
              | some (.str s) => some s
              | _ => some (jsonStringify f)
          | none => none
        else if ¬ jsNullish err then
          match err with
          | some (.str s) => some s
          | some e =>
              match e.get "message" with
              | some (.str s) => some s
              | _ => none
          | none => none
        else none
      match message with
      | some m =>
          if m ≠ "" ∧ ¬ jsTruthyOpt err then
            Json.obj (setField fields "error" (.str m))
          else
            Json.obj fields
      | none => Json.obj fields
  | other => other

/-- An upstream HTTP request, identified by its method and full URL. -/
structure HttpReq where
  method : String
  url : String
deriving DecidableEq, Repr

/-- Outcome of one upstream call: a body, or an axios-style error whose
`response.status` may be absent (network error). -/
inductive UpResult where
  | ok (body : Json)
  | err (status : Option Nat)

/-- The upstream oracle: what each request would answer. -/
abbrev Upstream : Type := HttpReq → UpResult

/-- Result of an embedded operation: a returned body or a propagated error
status (the `Option Nat` is the thrown error's `response.status`). -/
abbrev HttpResult : Type := Except (Option Nat) Json

/-- Returning an upstream outcome unchanged to the caller. -/
def upToResult : UpResult → HttpResult
  | .ok body => .ok body
  | .err st => .error st

/-- JS `String.prototype.trim` on the character list: drop leading
whitespace, and trailing whitespace via reverse. -/
def dropLeadingWs : List Char → List Char
  | [] => []
  | c :: rest => if c.isWhitespace then dropLeadingWs rest else c :: rest

/-- JS `s.trim()`. -/
def jsTrim (s : String) : String :=
  String.mk (List.reverse (dropLeadingWs (List.reverse (dropLeadingWs s.data))))

/-- JS `s.toLowerCase()`. -/
def jsToLower (s : String) : String :=
  String.mk (s.data.map Char.toLower)

/-- Split a character list at every occurrence of a separator character
(JS `s.split(sep)` semantics: n separators yield n+1 pieces). -/
def splitOnChar (sep : Char) : List Char → List (List Char)
  | [] => [[]]
  | c :: rest =>
      match splitOnChar sep rest with
      | [] => if c = sep then [[], []] else [[c]]
      | piece :: pieces =>
          if c = sep then [] :: piece :: pieces else (c :: piece) :: pieces

/-- JS `s.replace(/\/$/, '')`: remove one trailing slash if present. -/
def stripTrailingSlash (s : String) : String :=
  if s.data.getLast? = some '/' then String.mk s.data.dropLast else s

/-- JS `a || b` where `a` is a possibly-absent string ("" is falsy). -/
def jsOrStr (a : Option String) (b : String) : String :=
  match a with
  | some s => if s = "" then b else s
  | none => b

/-- The result of `AzureVideoProvider.buildBase`: the computed base URL, the
forced `api-version` value, the query-parameter record
`{ 'api-version': apiVersion }` built from it, and whether the forcing
warning was logged. Whether `params` is attached to an upstream request is
decided per axios call site (see `azureCallSiteParams`); the generate POST
does not attach it. -/
structure BuildBase where
  baseUrl : String
  apiVersion : String
  params : List (String × String)
  warned : Bool
deriving DecidableEq, Repr

/-- Embedding of `AzureVideoProvider.buildBase` (azure.video.provider.ts
lines 26-41): strip one trailing slash from the resolved endpoint, resolve
the requested api-version through the `||` chain, force the version to
'preview', warn when the requested one differed, and build the params
record `{ 'api-version': apiVersion }`. The constructor's
`AZURE_OPENAI_API_VERSION || 'preview'` default is `defaultApiVersion`
here. -/
def buildBase (defaultEndpoint : Option String) (defaultApiVersion : Option String)
    (optsEndpoint : Option String) (optsApiVersion : Option String) : BuildBase :=
  let endpoint := stripTrailingSlash (jsOrStr optsEndpoint (jsOrStr defaultEndpoint ""))
  let requestedVersion := jsOrStr optsApiVersion (jsOrStr defaultApiVersion "preview")
  let apiVersion := if requestedVersion = "preview" then "preview" else "preview"
  { baseUrl := endpoint ++ "/openai"
    apiVersion := apiVersion
    params := [("api-version", apiVersion)]
    warned := requestedVersion != apiVersion }

/-- The axios call sites of `AzureVideoProvider`, one per upstream request
the class can issue. -/
inductive AzureCallSite where
  | generatePost
  | statusPrimary
  | statusJobsFallback
  | listGet
  | remixPost
  | downloadVideosContent
  | downloadGensContent
  | downloadJobsStatus
  | downloadFinalContent
  | deleteVideos
  | deleteGens
  | deleteJobs
deriving DecidableEq, Repr

/-- `if (paramsIn?.limit != null) mergedParams['limit'] = paramsIn.limit`:
the limit entry when the caller supplied one. -/
def limitParam : Option Int → List (String × String)
  | some l => [("limit", toString l)]
  | none => []

/-- `if (paramsIn?.x) mergedParams['x'] = paramsIn.x`: an entry added only
when the caller-supplied value is truthy. -/
def truthyParam (key : String) : Option String → List (String × String)
  | some v => if v ≠ "" then [(key, v)] else []
  | none => []

/-- `listVideos`'s merged query parameters (azure.video.provider.ts lines
128-131): spread the buildBase params, then add `limit` when non-null and
`after`/`order` when truthy. -/
def azureListMergedParams (b : BuildBase) (limit : Option Int)
    (after order : Option String) : List (String × String) :=
  b.params ++ limitParam limit ++ truthyParam "after" after ++ truthyParam "order" order

/-- The query parameters attached to each axios call site's request config,
read off the config literals in azure.video.provider.ts: the generate POST
(line 94) passes `{ headers, proxy: false }` with no params key; the list
GET (line 136) passes the merged params; every other site (lines 109, 118,
136, 151, 165, 173, 182, 191, 206, 214, 222) passes the buildBase params
unchanged. -/
def azureCallSiteParams (b : BuildBase) (limit : Option Int)
    (after order : Option String) : AzureCallSite → List (String × String)
  | .generatePost => []
  | .statusPrimary => b.params
  | .statusJobsFallback => b.params
  | .listGet => azureListMergedParams b limit after order
  | .remixPost => b.params
  | .downloadVideosContent => b.params
  | .downloadGensContent => b.params
  | .downloadJobsStatus => b.params
  | .downloadFinalContent => b.params
  | .deleteVideos => b.params
  | .deleteGens => b.params
  | .deleteJobs => b.params

/-- Embedding of `AzureVideoProvider.getVideoStatus` (azure.video.provider.ts
lines 102-124): GET the videos shape; on a 404 fall back to the jobs shape;
any other error propagates. Successes pass through `addFailureReasonIfAny`.
Returns the outcome paired with the ordered trace of requests issued. -/
def azureGetVideoStatus (up : Upstream) (baseUrl videoId : String) :
    HttpResult × List HttpReq :=
  let primary : HttpReq := ⟨"GET", baseUrl ++ "/v1/videos/" ++ videoId⟩
  match up primary with
  | .ok body => (.ok (addFailureReasonIfAny body), [primary])
  | .err st =>
      if st = some 404 then
        let alt : HttpReq := ⟨"GET", baseUrl ++ "/v1/video/generations/jobs/" ++ videoId⟩
        match up alt with
        | .ok body => (.ok (addFailureReasonIfAny body), [primary, alt])
        | .err st2 => (.error st2, [primary, alt])
      else
        (.error st, [primary])

/-- `(jobRes?.data?.generations || [])` of the jobs-shape status payload. -/
def jobGenerations (jobBody : Json) : List Json :=
  match jobBody.get "generations" with
  | some (.arr elems) => elems
  | _ => []

/-- `generations.find(g => g?.id)?.id` stringified as in the URL template:
the id of the first generation entry with a truthy `id`. -/
def findGenId (jobBody : Json) : Option String :=
  match (jobGenerations jobBody).find? (fun g => jsTruthyOpt (g.get "id")) with
  | some g => (g.get "id").map Json.asString
  | none => none

/-- Embedding of `AzureVideoProvider.downloadVideoContent`
(azure.video.provider.ts lines 156-196): GET videos content; on 404 GET
generations content; on a second 404 GET the jobs-shape status, extract the
first generation id and GET the generations content URL for that derived id;
without a generation id the second 404 is rethrown. Non-404 errors propagate
without further probing. -/
def azureDownloadVideoContent (up : Upstream) (baseUrl videoId : String) :
    HttpResult × List HttpReq :=
  let videosReq : HttpReq := ⟨"GET", baseUrl ++ "/v1/videos/" ++ videoId ++ "/content"⟩
  let gensReq : HttpReq := ⟨"GET", baseUrl ++ "/v1/video/generations/" ++ videoId ++ "/content/video"⟩
  match up videosReq with
  | .ok body => (.ok body, [videosReq])
  | .err st =>
      if st ≠ some 404 then (.error st, [videosReq])
      else
        match up gensReq with
        | .ok body => (.ok body, [videosReq, gensReq])
        | .err st2 =>
            if st2 ≠ some 404 then (.error st2, [videosReq, gensReq])
            else
              let jobReq : HttpReq := ⟨"GET", baseUrl ++ "/v1/video/generations/jobs/" ++ videoId⟩
              match up jobReq with
              | .err st3 => (.error st3, [videosReq, gensReq, jobReq])
              | .ok jobBody =>
                  match findGenId jobBody with
                  | none => (.error st2, [videosReq, gensReq, jobReq])
                  | some genId =>
                      let finalReq : HttpReq :=
                        ⟨"GET", baseUrl ++ "/v1/video/generations/" ++ genId ++ "/content/video"⟩
                      (upToResult (up finalReq), [videosReq, gensReq, jobReq, finalReq])

/-- Embedding of `AzureVideoProvider.deleteVideo` (azure.video.provider.ts
lines 198-234): DELETE the videos, generations and jobs shapes in order,
advancing only on 404; if all three 404, return a synthetic empty object as
an idempotent success. Non-404 errors propagate without further probing. -/
def azureDeleteVideo (up : Upstream) (baseUrl videoId : String) :
    HttpResult × List HttpReq :=
  let videosReq : HttpReq := ⟨"DELETE", baseUrl ++ "/v1/videos/" ++ videoId⟩
  let gensReq : HttpReq := ⟨"DELETE", baseUrl ++ "/v1/video/generations/" ++ videoId⟩
  let jobsReq : HttpReq := ⟨"DELETE", baseUrl ++ "/v1/video/generations/jobs/" ++ videoId⟩
  match up videosReq with
  | .ok body => (.ok body, [videosReq])
  | .err st =>
      if st ≠ some 404 then (.error st, [videosReq])
      else
        match up gensReq with
        | .ok body => (.ok body, [videosReq, gensReq])
        | .err st2 =>
            if st2 ≠ some 404 then (.error st2, [videosReq, gensReq])
            else
              match up jobsReq with
              | .ok body => (.ok body, [videosReq, gensReq, jobsReq])
              | .err st3 =>
                  if st3 = some 404 then (.ok (Json.obj []), [videosReq, gensReq, jobsReq])
                  else (.error st3, [videosReq, gensReq, jobsReq])

/-- Modelled from the spec (§4.4): the claimed status-lookup behaviour, probing
the three addressing shapes videos, generations, jobs in this fixed order,
stopping at the first success and advancing only on 404. Written from the
spec's words to be compared against the source embedding
`azureGetVideoStatus`. -/
def getVideoStatusSpecThreeShapes (up : Upstream) (baseUrl videoId : String) :
    HttpResult × List HttpReq :=
  let videosReq : HttpReq := ⟨"GET", baseUrl ++ "/v1/videos/" ++ videoId⟩
  let gensReq : HttpReq := ⟨"GET", baseUrl ++ "/v1/video/generations/" ++ videoId⟩
  let jobsReq : HttpReq := ⟨"GET", baseUrl ++ "/v1/video/generations/jobs/" ++ videoId⟩
  match up videosReq with
  | .ok body => (.ok body, [videosReq])
  | .err st =>
      if st ≠ some 404 then (.error st, [videosReq])
      else
        match up gensReq with
        | .ok body => (.ok body, [videosReq, gensReq])
        | .err st2 =>
            if st2 ≠ some 404 then (.error st2, [videosReq, gensReq])
            else
              match up jobsReq with
              | .ok body => (.ok body, [videosReq, gensReq, jobsReq])
              | .err st3 => (.error st3, [videosReq, gensReq, jobsReq])

/-- JS `a ?? b` for possibly-absent JSON values (only `null`/`undefined`
fall through). -/
def jsNullishCoalesce (a b : Option Json) : Option Json :=
  if jsNullish a then b else a

/-- JS `x != null` filtering: the value when non-nullish, else `none`. -/
def jsValueOrNone (a : Option Json) : Option Json :=
  if jsNullish a then none else a

/-- The JSON body of an outgoing video-creation request (`prompt`, `model`,
optional `size` and `seconds` fields). -/
structure VideoBody where
  prompt : String
  model : String
  size : Option String
  seconds : Option String
deriving DecidableEq, Repr

/-- An outgoing POST video-creation request: target URL and JSON body. -/
structure GenRequest where
  url : String
  body : VideoBody
deriving DecidableEq, Repr

/-- Embedding of `AzureVideoProvider.generateVideo` (azure.video.provider.ts
lines 67-100): reject a blank prompt before any upstream call; default a
blank model to 'sora-2' but send any non-blank trimmed model as provided;
stringify a non-nullish duration (`options.duration ?? options.seconds`)
into `seconds` unconditionally; include `size` when truthy. Returns the
request that would be POSTed ( `.error` means no upstream call is made;
the POST's response or error is relayed unchanged by the source). -/
def azureGenerateVideo (prompt model : String) (size : Option String)
    (duration seconds : Option Json) (baseUrl : String) :
    Except String GenRequest :=
  if jsTrim prompt = "" then .error "'prompt' is required"
  else
    let resolution := size
    let secs := jsNullishCoalesce duration seconds
    let normalizedModel := if jsTrim model ≠ "" then jsTrim model else "sora-2"
    let sizeField :=
      match resolution with
      | some s => if s ≠ "" then some s else none
      | none => none
    let secondsField :=
      match jsValueOrNone secs with
      | some v => some v.asString
      | none => none
    .ok { url := baseUrl ++ "/v1/videos"
          body := { prompt := prompt, model := normalizedModel
                    size := sizeField, seconds := secondsField } }

/-- Embedding of `OpenAIService.normalizeModel`: keep a truthy member of
SUPPORTED MODELS unchanged; replace any other truthy value by 'sora-2' with a
warning log (the returned Bool); a falsy/absent request silently defaults.
-/
def normalizeModel (requested : Option String) : String × Bool :=
  let allowed : List String := ["sora-2", "sora-2-pro"]
  match requested with
  | some r =>
      if r ≠ "" ∧ r ∈ allowed then (r, false)
      else if r ≠ "" ∧ r ∉ allowed then ("sora-2", true)
      else ("sora-2", false)
  | none => ("sora-2", false)

/-- Embedding of `OpenAIService.mapSizeToResolution`: a `WxH` digit string
(lower-cased) passes through; the keywords 1080p/720p/480p map to fixed
resolutions; anything else maps to `undefined`. -/
def mapSizeToResolution (size : Option String) : Option String :=
  match size with
  | none => none
  | some s =>
      if s = "" then none
      else
        let normalized := jsToLower s
        let isWxH :=
          match splitOnChar 'x' normalized.data with
          | [a, b] => !a.isEmpty && a.all Char.isDigit && !b.isEmpty && b.all Char.isDigit
          | _ => false
        if isWxH then some normalized
        else if normalized = "1080p" then some "1920x1080"
        else if normalized = "720p" then some "1280x720"
        else if normalized = "480p" then some "854x480"
        else none

/-- The two resolvable upstream providers. -/
inductive Provider where
  | openai
  | azure
deriving DecidableEq, Repr

/-- Embedding of `OpenAIService.generateVideo` (service file lines 101-178):
validate the prompt, then either dispatch to the Azure provider with the raw
model and the coalesced duration (bypassing `normalizeModel` and the
{4,8,12} seconds filter), or build the OpenAI JSON body where an unsupported
model is replaced via `normalizeModel` and a duration outside {4,8,12} is
omitted with a warning. Result: the outgoing request plus the
(modelWarned, secondsWarned) log flags; `.error` means no upstream call. -/
def osGenerateVideo (provider : Provider) (openaiBaseUrl azureBaseUrl : String)
    (prompt model : String) (size : Option String) (duration seconds : Option Json) :
    Except String (GenRequest × Bool × Bool) :=
  if jsTrim prompt = "" then .error "'prompt' is required"
  else
    let resolution := mapSizeToResolution size
    match provider with
    | .azure =>
        match azureGenerateVideo prompt model resolution
            (jsNullishCoalesce duration seconds) none azureBaseUrl with
        | .ok req => .ok (req, false, false)
        | .error e => .error e
    | .openai =>
        let resolved := normalizeModel (some model)
        let resolvedModel := resolved.1
        let modelWarned := resolved.2
        let candidateSeconds := jsNullishCoalesce duration seconds
        let secondsPair : Option String × Bool :=
          match jsValueOrNone candidateSeconds with
          | none => (none, false)
          | some v =>
              let asStr := v.asString
              if asStr ∈ ["4", "8", "12"] then (some asStr, false) else (none, true)
        let normalizedSeconds := secondsPair.1
        let secondsWarned := secondsPair.2
        let secondsField :=
          match normalizedSeconds with
          | some s => if s ≠ "" then some s else none
          | none => none
        let sizeField :=
          match resolution with
          | some s => if s ≠ "" then some s else none
          | none => none
        .ok ({ url := openaiBaseUrl ++ "/videos"
               body := { prompt := prompt, model := resolvedModel
                         size := sizeField, seconds := secondsField } },
             modelWarned, secondsWarned)

/-- Embedding of `redactHeaders` (service file lines 476-487): every header
whose lower-cased name is authorization, api-key or x-api-key maps to the
literal '[REDACTED]'; every other header passes through unchanged. -/
def redactHeaders (headers : List (String × String)) : List (String × String) :=
  headers.map (fun entry =>
    let key := jsToLower entry.1
    if key = "authorization" ∨ key = "api-key" ∨ key = "x-api-key" then
      (entry.1, "[REDACTED]")
    else
      entry)

/-- The methods defined by the `AzureVideoProvider` class body
(azure.video.provider.ts lines 9-235). -/
def azureVideoProviderMethodNames : List String :=
  ["buildBase", "addFailureReasonIfAny", "generateVideo", "getVideoStatus",
   "listVideos", "remixVideo", "downloadVideoContent", "deleteVideo"]

/-- How `OpenAIService.generateVideoFromImage` can fail or proceed. -/
inductive ImageGenError where
  | validation (msg : String)
  | methodMissing (name : String)
deriving DecidableEq, Repr

/-- The multipart form built on the OpenAI image path. -/
structure ImageGenForm where
  model : String
  prompt : String
  size : Option String
  seconds : Option String
  inputReferenceFilename : String
deriving DecidableEq, Repr

/-- Embedding of `OpenAIService.generateVideoFromImage` (service file lines
183-244): validate prompt and image payload; on the azure path the broker
invokes `this.azureVideoProvider.generateVideoFromImage`, so the dispatch is
modelled as a method lookup on `azureVideoProviderMethodNames` — a missing
method is a TypeError thrown before any upstream request; on the openai path
the multipart form and target URL are built. `.ok` carries the request URL
and form; `.error` means no upstream call is made. -/
def osGenerateVideoFromImage (provider : Provider) (openaiBaseUrl : String)
    (hasBuffer hasMimetype : Bool) (originalname : Option String)
    (prompt model : String) (size : Option String) (duration seconds : Option Json) :
    Except ImageGenError (String × ImageGenForm) :=
  if jsTrim prompt = "" then .error (.validation "'prompt' is required")
  else if !(hasBuffer && hasMimetype) then .error (.validation "'image' file is required")
  else
    match provider with
    | .azure =>
        -- `this.azureVideoProvider.generateVideoFromImage(...)`: the member
        -- lookup on the provider finds no such method (see
        -- azureVideoProviderMethodNames), so invocation throws a TypeError
        -- before any upstream request is issued.
        .error (.methodMissing "generateVideoFromImage")
    | .openai =>
        let resolved := normalizeModel (some model)
        let resolution := mapSizeToResolution size
        let secs := jsNullishCoalesce duration seconds
        let sizeField :=
          match resolution with
          | some s => if s ≠ "" then some s else none
          | none => none
        let secondsField :=
          match jsValueOrNone secs with
          | some v => some v.asString
          | none => none
        .ok (openaiBaseUrl ++ "/videos",
             { model := resolved.1, prompt := prompt
               size := sizeField, seconds := secondsField
               inputReferenceFilename := jsOrStr originalname "reference.png" })

/-! ## Theorems -/

/-- `buildBase` always forces the api-version value to 'preview'. -/
theorem buildBase_apiVersion_eq (dE dV oE oV : Option String) :
    (buildBase dE dV oE oV).apiVersion = "preview" := by
  simp only [buildBase]
  split <;> rfl

/-- `buildBase`'s params record is always `{ 'api-version': 'preview' }`. -/
theorem buildBase_params_eq (dE dV oE oV : Option String) :
    (buildBase dE dV oE oV).params = [("api-version", "preview")] := by
  simp only [buildBase]
  split <;> rfl

/-- C7 counterexample: on the generate call site, the request config
(azure.video.provider.ts line 94, `{ headers, proxy: false }`) attaches no
query parameters at all, so no api-version — in particular not 'preview' —
is sent on an Azure generate request, refuting the claim for that request. -/
theorem api_version_not_sent_on_generate_counterexample :
    azureCallSiteParams
        (buildBase (some "https://e") (some "preview") none (some "2024-02-15-preview"))
        none none none .generatePost = [] ∧
    ("api-version", "preview") ∉
      azureCallSiteParams
        (buildBase (some "https://e") (some "preview") none (some "2024-02-15-preview"))
        none none none .generatePost := by
  exact ⟨rfl, by simp [azureCallSiteParams]⟩

/-- Any entry of the list-call merged params is a buildBase param or one of
the paging keys. -/
theorem mem_azureListMergedParams (b : BuildBase) (limit : Option Int)
    (after order : Option String) (p : String × String)
    (h : p ∈ azureListMergedParams b limit after order) :
    p ∈ b.params ∨ p.1 = "limit" ∨ p.1 = "after" ∨ p.1 = "order" := by
  simp only [azureListMergedParams, List.mem_append] at h
  rcases h with ((h | h) | h) | h
  · exact Or.inl h
  · rcases limit with _ | l
    · simp [limitParam] at h
    · simp only [limitParam, List.mem_singleton] at h
      subst h
      exact Or.inr (Or.inl rfl)
  · rcases after with _ | a
    · simp [truthyParam] at h
    · simp only [truthyParam] at h
      by_cases hc : a ≠ ""
      · rw [if_pos hc] at h
        simp only [List.mem_singleton] at h
        subst h
        exact Or.inr (Or.inr (Or.inl rfl))
      · rw [if_neg hc] at h
        simp at h
  · rcases order with _ | o
    · simp [truthyParam] at h
    · simp only [truthyParam] at h
      by_cases hc : o ≠ ""
      · rw [if_pos hc] at h
        simp only [List.mem_singleton] at h
        subst h
        exact Or.inr (Or.inr (Or.inr rfl))
      · rw [if_neg hc] at h
        simp at h

/-- C7 amended: on every Azure call site that attaches query parameters to
its request (status, list, remix, download and delete — every site except
the generate POST), the api-version parameter sent upstream is present and
is the single pinned value 'preview' regardless of the caller-requested
azureApiVersion, and no other api-version value is ever attached anywhere;
the generate POST attaches no query parameters at all; whenever the
caller's non-blank requested version differs from 'preview' the forcing
warning is logged. -/
theorem api_version_pinned_where_params_sent (dE dV oE oV : Option String)
    (limit : Option Int) (after order : Option String) :
    (∀ site v, ("api-version", v) ∈
        azureCallSiteParams (buildBase dE dV oE oV) limit after order site →
      v = "preview") ∧
    (∀ site, site ≠ AzureCallSite.generatePost →
      ("api-version", "preview") ∈
        azureCallSiteParams (buildBase dE dV oE oV) limit after order site) ∧
    azureCallSiteParams (buildBase dE dV oE oV) limit after order .generatePost = [] ∧
    (∀ r, oV = some r → r ≠ "" → r ≠ "preview" →
      (buildBase dE dV oE oV).warned = true) := by
  have hparams := buildBase_params_eq dE dV oE oV
  refine ⟨?_, ?_, rfl, ?_⟩
  · intro site v hmem
    cases site
    case generatePost => simp [azureCallSiteParams] at hmem
    case listGet =>
      rcases mem_azureListMergedParams (buildBase dE dV oE oV) limit after order _ hmem
        with h | h | h | h
      · rw [hparams] at h
        simp only [List.mem_singleton, Prod.mk.injEq] at h
        exact h.2
      · have h' : ("api-version" : String) = "limit" := h
        exact absurd h' (by decide)
      · have h' : ("api-version" : String) = "after" := h
        exact absurd h' (by decide)
      · have h' : ("api-version" : String) = "order" := h
        exact absurd h' (by decide)
    all_goals
      simp only [azureCallSiteParams, hparams, List.mem_singleton, Prod.mk.injEq] at hmem
    all_goals exact hmem.2
  · intro site hsite
    cases site <;>
      simp [azureCallSiteParams, azureListMergedParams, hparams] at hsite ⊢
  · intro r hr hne hnp
    simp only [buildBase, jsOrStr, hr, if_neg hne]
    simp [bne_iff_ne, hnp]

/-- Closed witness for `api_version_pinned_where_params_sent`: with a
caller-requested version of 2024-02-15-preview and paging parameters, the
list call site carries api-version 'preview', the generate site carries no
parameters, and the forcing warning is logged. -/
theorem api_version_pinned_where_params_sent_witness :
    ("api-version", "preview") ∈
      azureCallSiteParams
        (buildBase (some "https://e/") (some "preview") (some "https://tenant")
          (some "2024-02-15-preview"))
        (some 10) (some "cursor") (some "desc") .listGet ∧
    azureCallSiteParams
        (buildBase (some "https://e/") (some "preview") (some "https://tenant")
          (some "2024-02-15-preview"))
        (some 10) (some "cursor") (some "desc") .generatePost = [] ∧
    (buildBase (some "https://e/") (some "preview") (some "https://tenant")
        (some "2024-02-15-preview")).warned = true :=
  ⟨(api_version_pinned_where_params_sent (some "https://e/") (some "preview")
      (some "https://tenant") (some "2024-02-15-preview")
      (some 10) (some "cursor") (some "desc")).2.1 .listGet (by decide),
   (api_version_pinned_where_params_sent (some "https://e/") (some "preview")
      (some "https://tenant") (some "2024-02-15-preview")
      (some 10) (some "cursor") (some "desc")).2.2.1,
   (api_version_pinned_where_params_sent (some "https://e/") (some "preview")
      (some "https://tenant") (some "2024-02-15-preview")
      (some 10) (some "cursor") (some "desc")).2.2.2 "2024-02-15-preview" rfl
      (by decide) (by decide)⟩

/-- C9: the log-redaction function maps every header whose lower-cased name
is authorization, api-key or x-api-key to the literal '[REDACTED]', carries
every other header through unchanged, and introduces no header that was not
present in the input. -/
theorem redactHeaders_never_leaks (hs : List (String × String)) :
    (∀ k v, (k, v) ∈ redactHeaders hs →
      (jsToLower k = "authorization" ∨ jsToLower k = "api-key" ∨ jsToLower k = "x-api-key") →
      v = "[REDACTED]") ∧
    (∀ k v, (k, v) ∈ hs →
      ¬ (jsToLower k = "authorization" ∨ jsToLower k = "api-key" ∨ jsToLower k = "x-api-key") →
      (k, v) ∈ redactHeaders hs) ∧
    (∀ k v, (k, v) ∈ hs →
      (jsToLower k = "authorization" ∨ jsToLower k = "api-key" ∨ jsToLower k = "x-api-key") →
      (k, "[REDACTED]") ∈ redactHeaders hs) ∧
    (∀ k v, (k, v) ∈ redactHeaders hs → ∃ w, (k, w) ∈ hs) := by
  refine ⟨?_, ?_, ?_, ?_⟩
  · intro k v hmem hkey
    rcases List.mem_map.1 hmem with ⟨⟨k', v'⟩, hmem', heq⟩
    by_cases hc : jsToLower k' = "authorization" ∨ jsToLower k' = "api-key" ∨ jsToLower k' = "x-api-key"
    · simp only [if_pos hc] at heq
      injection heq with h1 h2
      exact h2.symm
    · simp only [if_neg hc] at heq
      injection heq with h1 h2
      subst h1
      exact absurd hkey hc
  · intro k v hmem hkey
    refine List.mem_map.2 ⟨(k, v), hmem, ?_⟩
    simp only [if_neg hkey]
  · intro k v hmem hkey
    refine List.mem_map.2 ⟨(k, v), hmem, ?_⟩
    simp only [if_pos hkey]
  · intro k v hmem
    rcases List.mem_map.1 hmem with ⟨⟨k', v'⟩, hmem', heq⟩
    by_cases hc : jsToLower k' = "authorization" ∨ jsToLower k' = "api-key" ∨ jsToLower k' = "x-api-key"
    · simp only [if_pos hc] at heq
      cases heq
      exact ⟨v', hmem'⟩
    · simp only [if_neg hc] at heq
      cases heq
      exact ⟨v, hmem'⟩

/-- Closed witness for `redactHeaders_never_leaks` on a concrete header map
with an Authorization bearer token, an api-key and a content type. -/
theorem redactHeaders_never_leaks_witness :
    ("Authorization", "[REDACTED]") ∈
      redactHeaders [("Authorization", "Bearer sk-secret"), ("Content-Type", "application/json")] ∧
    ("Content-Type", "application/json") ∈
      redactHeaders [("Authorization", "Bearer sk-secret"), ("Content-Type", "application/json")] :=
  ⟨(redactHeaders_never_leaks
      [("Authorization", "Bearer sk-secret"), ("Content-Type", "application/json")]).2.2.1
      "Authorization" "Bearer sk-secret" (by simp) (by decide),
   (redactHeaders_never_leaks
      [("Authorization", "Bearer sk-secret"), ("Content-Type", "application/json")]).2.1
      "Content-Type" "application/json" (by simp) (by decide)⟩

/-- C2: in every Azure fallback-probing operation (status, content download,
delete), a shape attempt failing with a non-404 status halts the probe: no
further shape is attempted and that error propagates unchanged; only a 404
advances to the next shape. Stated for each probing stage of each
operation. -/
theorem azure_non404_halts_probing (up : Upstream) (baseUrl videoId : String)
    (st : Option Nat) (h404 : st ≠ some 404) :
    (up ⟨"GET", baseUrl ++ "/v1/videos/" ++ videoId⟩ = .err st →
      azureGetVideoStatus up baseUrl videoId =
        (.error st, [⟨"GET", baseUrl ++ "/v1/videos/" ++ videoId⟩])) ∧
    (up ⟨"GET", baseUrl ++ "/v1/videos/" ++ videoId ++ "/content"⟩ = .err st →
      azureDownloadVideoContent up baseUrl videoId =
        (.error st, [⟨"GET", baseUrl ++ "/v1/videos/" ++ videoId ++ "/content"⟩])) ∧
    (up ⟨"GET", baseUrl ++ "/v1/videos/" ++ videoId ++ "/content"⟩ = .err (some 404) →
      up ⟨"GET", baseUrl ++ "/v1/video/generations/" ++ videoId ++ "/content/video"⟩ = .err st →
      azureDownloadVideoContent up baseUrl videoId =
        (.error st,
         [⟨"GET", baseUrl ++ "/v1/videos/" ++ videoId ++ "/content"⟩,
          ⟨"GET", baseUrl ++ "/v1/video/generations/" ++ videoId ++ "/content/video"⟩])) ∧
    (up ⟨"DELETE", baseUrl ++ "/v1/videos/" ++ videoId⟩ = .err st →
      azureDeleteVideo up baseUrl videoId =
        (.error st, [⟨"DELETE", baseUrl ++ "/v1/videos/" ++ videoId⟩])) ∧
    (up ⟨"DELETE", baseUrl ++ "/v1/videos/" ++ videoId⟩ = .err (some 404) →
      up ⟨"DELETE", baseUrl ++ "/v1/video/generations/" ++ videoId⟩ = .err st →
      azureDeleteVideo up baseUrl videoId =
        (.error st,
         [⟨"DELETE", baseUrl ++ "/v1/videos/" ++ videoId⟩,
          ⟨"DELETE", baseUrl ++ "/v1/video/generations/" ++ videoId⟩])) ∧
    (up ⟨"DELETE", baseUrl ++ "/v1/videos/" ++ videoId⟩ = .err (some 404) →
      up ⟨"DELETE", baseUrl ++ "/v1/video/generations/" ++ videoId⟩ = .err (some 404) →
      up ⟨"DELETE", baseUrl ++ "/v1/video/generations/jobs/" ++ videoId⟩ = .err st →
      azureDeleteVideo up baseUrl videoId =
        (.error st,
         [⟨"DELETE", baseUrl ++ "/v1/videos/" ++ videoId⟩,
          ⟨"DELETE", baseUrl ++ "/v1/video/generations/" ++ videoId⟩,
          ⟨"DELETE", baseUrl ++ "/v1/video/generations/jobs/" ++ videoId⟩])) := by
  refine ⟨?_, ?_, ?_, ?_, ?_, ?_⟩
  · intro h1
    simp [azureGetVideoStatus, h1, h404]
  · intro h1
    simp [azureDownloadVideoContent, h1, h404]
  · intro h1 h2
    simp [azureDownloadVideoContent, h1, h2, h404]
  · intro h1
    simp [azureDeleteVideo, h1, h404]
  · intro h1 h2
    simp [azureDeleteVideo, h1, h2, h404]
  · intro h1 h2 h3
    simp [azureDeleteVideo, h1, h2, h3, h404]

/-- An upstream on which every request fails with HTTP 401. -/
def upAll401 : Upstream := fun _ => .err (some 401)

/-- Closed witness for `azure_non404_halts_probing`: against an upstream that
answers 401 everywhere, the first shape's 401 is propagated with no second
attempt, for status, download and delete alike. -/
theorem azure_non404_halts_probing_witness :
    azureGetVideoStatus upAll401 "https://e/openai" "vid" =
      (.error (some 401), [⟨"GET", "https://e/openai" ++ "/v1/videos/" ++ "vid"⟩]) ∧
    azureDeleteVideo upAll401 "https://e/openai" "vid" =
      (.error (some 401), [⟨"DELETE", "https://e/openai" ++ "/v1/videos/" ++ "vid"⟩]) :=
  ⟨(azure_non404_halts_probing upAll401 "https://e/openai" "vid" (some 401) (by decide)).1 rfl,
   (azure_non404_halts_probing upAll401 "https://e/openai" "vid" (some 401) (by decide)).2.2.2.1 rfl⟩

/-- C3: when all three addressing shapes answer 404 to DELETE, `deleteVideo`
returns the synthetic empty-success object `{}` instead of throwing, after
probing exactly the three shapes in order; the operation is deterministic in
the upstream, so a second identical call on the same already-deleted id
returns the same success. -/
theorem azureDeleteVideo_all404_idempotent_success (up : Upstream) (baseUrl videoId : String)
    (h1 : up ⟨"DELETE", baseUrl ++ "/v1/videos/" ++ videoId⟩ = .err (some 404))
    (h2 : up ⟨"DELETE", baseUrl ++ "/v1/video/generations/" ++ videoId⟩ = .err (some 404))
    (h3 : up ⟨"DELETE", baseUrl ++ "/v1/video/generations/jobs/" ++ videoId⟩ = .err (some 404)) :
    azureDeleteVideo up baseUrl videoId =
      (.ok (Json.obj []),
       [⟨"DELETE", baseUrl ++ "/v1/videos/" ++ videoId⟩,
        ⟨"DELETE", baseUrl ++ "/v1/video/generations/" ++ videoId⟩,
        ⟨"DELETE", baseUrl ++ "/v1/video/generations/jobs/" ++ videoId⟩]) := by
  simp [azureDeleteVideo, h1, h2, h3]

/-- An upstream on which every request fails with HTTP 404 (a fully deleted
or unknown resource). -/
def upAll404 : Upstream := fun _ => .err (some 404)

/-- Closed witness for `azureDeleteVideo_all404_idempotent_success` on an
already-deleted id: the delete returns the empty-success object. -/
theorem azureDeleteVideo_all404_idempotent_success_witness :
    azureDeleteVideo upAll404 "https://e/openai" "vid" =
      (.ok (Json.obj []),
       [⟨"DELETE", "https://e/openai" ++ "/v1/videos/" ++ "vid"⟩,
        ⟨"DELETE", "https://e/openai" ++ "/v1/video/generations/" ++ "vid"⟩,
        ⟨"DELETE", "https://e/openai" ++ "/v1/video/generations/jobs/" ++ "vid"⟩]) :=
  azureDeleteVideo_all404_idempotent_success upAll404 "https://e/openai" "vid" rfl rfl rfl

/-- An upstream on which the videos status shape of id vid1 404s while the
generations shape of vid1 would succeed; everything else 404s. -/
def upGenAliasOnly : Upstream := fun r =>
  if r.url = "https://e/openai/v1/video/generations/vid1" then
    .ok (Json.obj [("id", Json.str "vid1")])
  else .err (some 404)

/-- C1 counterexample: on an upstream where the videos shape 404s and the
generations shape would succeed, `getVideoStatus` does not behave as the
claimed three-shape probe: its request trace differs from the claimed order
(`getVideoStatusSpecThreeShapes`) and the generations-shape URL is never
requested at all. -/
theorem getVideoStatus_three_shapes_counterexample :
    (azureGetVideoStatus upGenAliasOnly "https://e/openai" "vid1").2 ≠
      (getVideoStatusSpecThreeShapes upGenAliasOnly "https://e/openai" "vid1").2 ∧
    HttpReq.mk "GET" "https://e/openai/v1/video/generations/vid1" ∉
      (azureGetVideoStatus upGenAliasOnly "https://e/openai" "vid1").2 := by
  decide

/-- C1 amended: `getVideoStatus` attempts only two addressing shapes, in the
fixed order videos (/openai/v1/videos/{id}) then jobs
(/openai/v1/video/generations/jobs/{id}), stopping at the first success;
only a 404 from the videos shape triggers the jobs attempt, and the
generations shape /openai/v1/video/generations/{id} is never probed by a
status lookup. -/
theorem azureGetVideoStatus_probes_videos_then_jobs (up : Upstream) (baseUrl videoId : String) :
    ((azureGetVideoStatus up baseUrl videoId).2 =
        [⟨"GET", baseUrl ++ "/v1/videos/" ++ videoId⟩] ∨
     (azureGetVideoStatus up baseUrl videoId).2 =
        [⟨"GET", baseUrl ++ "/v1/videos/" ++ videoId⟩,
         ⟨"GET", baseUrl ++ "/v1/video/generations/jobs/" ++ videoId⟩]) ∧
    (∀ body, up ⟨"GET", baseUrl ++ "/v1/videos/" ++ videoId⟩ = .ok body →
      azureGetVideoStatus up baseUrl videoId =
        (.ok (addFailureReasonIfAny body),
         [⟨"GET", baseUrl ++ "/v1/videos/" ++ videoId⟩])) ∧
    (up ⟨"GET", baseUrl ++ "/v1/videos/" ++ videoId⟩ = .err (some 404) →
      ∀ body, up ⟨"GET", baseUrl ++ "/v1/video/generations/jobs/" ++ videoId⟩ = .ok body →
      azureGetVideoStatus up baseUrl videoId =
        (.ok (addFailureReasonIfAny body),
         [⟨"GET", baseUrl ++ "/v1/videos/" ++ videoId⟩,
          ⟨"GET", baseUrl ++ "/v1/video/generations/jobs/" ++ videoId⟩])) ∧
    (∀ r ∈ (azureGetVideoStatus up baseUrl videoId).2,
      r.url ≠ baseUrl ++ "/v1/video/generations/" ++ videoId) := by
  have hne1 : baseUrl ++ "/v1/videos/" ++ videoId ≠
      baseUrl ++ "/v1/video/generations/" ++ videoId := by
    intro h
    have hlen := congrArg String.length h
    have e1 : ("/v1/videos/" : String).length = 11 := rfl
    have e2 : ("/v1/video/generations/" : String).length = 22 := rfl
    simp only [String.length_append, e1, e2] at hlen
    omega
  have hne2 : baseUrl ++ "/v1/video/generations/jobs/" ++ videoId ≠
      baseUrl ++ "/v1/video/generations/" ++ videoId := by
    intro h
    have hlen := congrArg String.length h
    have e1 : ("/v1/video/generations/jobs/" : String).length = 27 := rfl
    have e2 : ("/v1/video/generations/" : String).length = 22 := rfl
    simp only [String.length_append, e1, e2] at hlen
    omega
  refine ⟨?_, ?_, ?_, ?_⟩
  · rcases hv : up ⟨"GET", baseUrl ++ "/v1/videos/" ++ videoId⟩ with body | st
    · left
      simp [azureGetVideoStatus, hv]
    · by_cases h4 : st = some 404
      · subst h4
        rcases hj : up ⟨"GET", baseUrl ++ "/v1/video/generations/jobs/" ++ videoId⟩ with body | st2
        · right
          simp [azureGetVideoStatus, hv, hj]
        · right
          simp [azureGetVideoStatus, hv, hj]
      · left
        simp [azureGetVideoStatus, hv, h4]
  · intro body hv
    simp [azureGetVideoStatus, hv]
  · intro hv body hj
    simp [azureGetVideoStatus, hv, hj]
  · intro r hr
    rcases hv : up ⟨"GET", baseUrl ++ "/v1/videos/" ++ videoId⟩ with body | st
    · simp [azureGetVideoStatus, hv] at hr
      subst hr
      exact hne1
    · by_cases h4 : st = some 404
      · subst h4
        rcases hj : up ⟨"GET", baseUrl ++ "/v1/video/generations/jobs/" ++ videoId⟩ with body | st2
        · simp [azureGetVideoStatus, hv, hj] at hr
          rcases hr with hr | hr
          · subst hr; exact hne1
          · subst hr; exact hne2
        · simp [azureGetVideoStatus, hv, hj] at hr
          rcases hr with hr | hr
          · subst hr; exact hne1
          · subst hr; exact hne2
      · simp [azureGetVideoStatus, hv, h4] at hr
        subst hr
        exact hne1

/-- An upstream that answers every request with an empty object body. -/
def upAllOkEmpty : Upstream := fun _ => .ok (Json.obj [])

/-- Closed witness for `azureGetVideoStatus_probes_videos_then_jobs`: when
the videos shape answers directly, the status lookup returns the decorated
body after a single request. -/
theorem azureGetVideoStatus_probes_videos_then_jobs_witness :
    azureGetVideoStatus upAllOkEmpty "https://e/openai" "vid" =
      (.ok (addFailureReasonIfAny (Json.obj [])),
       [⟨"GET", "https://e/openai" ++ "/v1/videos/" ++ "vid"⟩]) :=
  (azureGetVideoStatus_probes_videos_then_jobs upAllOkEmpty "https://e/openai" "vid").2.1
    (Json.obj []) rfl

/-- C4: when the videos and generations content shapes both 404 and the jobs
status answers with a job body, the derived generation id (the id of the
first generation entry with a truthy id) determines the final content
request, which targets the generations content URL of the derived id — not
of the original input id — and whose outcome is relayed as the result; when
the job body yields no generation id, the 404 is propagated after the three
probes. -/
theorem azureDownloadVideoContent_resolves_generation (up : Upstream)
    (baseUrl videoId : String) (jobBody : Json)
    (h1 : up ⟨"GET", baseUrl ++ "/v1/videos/" ++ videoId ++ "/content"⟩ = .err (some 404))
    (h2 : up ⟨"GET", baseUrl ++ "/v1/video/generations/" ++ videoId ++ "/content/video"⟩ =
      .err (some 404))
    (h3 : up ⟨"GET", baseUrl ++ "/v1/video/generations/jobs/" ++ videoId⟩ = .ok jobBody) :
    (∀ genId, findGenId jobBody = some genId →
      azureDownloadVideoContent up baseUrl videoId =
        (upToResult (up ⟨"GET", baseUrl ++ "/v1/video/generations/" ++ genId ++ "/content/video"⟩),
         [⟨"GET", baseUrl ++ "/v1/videos/" ++ videoId ++ "/content"⟩,
          ⟨"GET", baseUrl ++ "/v1/video/generations/" ++ videoId ++ "/content/video"⟩,
          ⟨"GET", baseUrl ++ "/v1/video/generations/jobs/" ++ videoId⟩,
          ⟨"GET", baseUrl ++ "/v1/video/generations/" ++ genId ++ "/content/video"⟩])) ∧
    (findGenId jobBody = none →
      azureDownloadVideoContent up baseUrl videoId =
        (.error (some 404),
         [⟨"GET", baseUrl ++ "/v1/videos/" ++ videoId ++ "/content"⟩,
          ⟨"GET", baseUrl ++ "/v1/video/generations/" ++ videoId ++ "/content/video"⟩,
          ⟨"GET", baseUrl ++ "/v1/video/generations/jobs/" ++ videoId⟩])) := by
  constructor
  · intro genId hg
    simp [azureDownloadVideoContent, h1, h2, h3, hg]
  · intro hg
    simp [azureDownloadVideoContent, h1, h2, h3, hg]

/-- The job body answered by the jobs shape in the C4 witness: one
generation entry whose id is gen_1. -/
def jobBodyGen1 : Json :=
  Json.obj [("id", Json.str "job_1"),
            ("generations", Json.arr [Json.obj [("id", Json.str "gen_1")]])]

/-- An upstream where both content shapes of id vid 404, the jobs status
answers a job holding generation gen_1, and the generations content URL of
gen_1 streams the video. -/
def upJobGen1 : Upstream := fun r =>
  if r.url = "https://e/openai/v1/video/generations/jobs/vid" then .ok jobBodyGen1
  else if r.url = "https://e/openai/v1/video/generations/gen_1/content/video" then
    .ok (Json.str "mp4-bytes")
  else .err (some 404)

/-- Closed witness for `azureDownloadVideoContent_resolves_generation`: the
final content request targets gen_1's generations content URL, not the
original id vid. -/
theorem azureDownloadVideoContent_resolves_generation_witness :
    azureDownloadVideoContent upJobGen1 "https://e/openai" "vid" =
      (upToResult
        (upJobGen1 ⟨"GET", "https://e/openai" ++ "/v1/video/generations/" ++ "gen_1" ++ "/content/video"⟩),
       [⟨"GET", "https://e/openai" ++ "/v1/videos/" ++ "vid" ++ "/content"⟩,
        ⟨"GET", "https://e/openai" ++ "/v1/video/generations/" ++ "vid" ++ "/content/video"⟩,
        ⟨"GET", "https://e/openai" ++ "/v1/video/generations/jobs/" ++ "vid"⟩,
        ⟨"GET", "https://e/openai" ++ "/v1/video/generations/" ++ "gen_1" ++ "/content/video"⟩]) ∧
    ("gen_1" : String) ≠ "vid" :=
  ⟨(azureDownloadVideoContent_resolves_generation upJobGen1 "https://e/openai" "vid"
      jobBodyGen1 rfl rfl rfl).1 "gen_1" rfl,
   by decide⟩

/-- C5 counterexample: a generate request routed to the azure provider with
the unsupported duration 5 does NOT omit the seconds field — the outgoing
body carries seconds = "5", refuting the claim that every resolved provider
drops durations outside {4, 8, 12}. -/
theorem unsupported_duration_sent_to_azure_counterexample :
    osGenerateVideo .azure "https://api.openai.com/v1" "https://e/openai" "a cat" "sora-2"
        none (some (Json.num 5)) none =
      .ok ({ url := "https://e/openai" ++ "/v1/videos",
             body := { prompt := "a cat", model := "sora-2", size := none,
                       seconds := some "5" } },
           false, false) := by
  rfl

/-- C5 amended: for a generate request with a non-null duration whose string
form is not in {"4","8","12"}, the openai path omits the seconds field from
the outgoing body and raises the seconds warning instead of an error, while
the azure path sends the stringified duration through as the seconds field;
neither path errors. -/
theorem duration_normalization_by_provider (oB aB prompt model : String)
    (size : Option String) (d : Json)
    (hp : jsTrim prompt ≠ "") (hnn : jsNullish (some d) = false)
    (hd : Json.asString d ∉ (["4", "8", "12"] : List String)) :
    (∃ r : GenRequest × Bool × Bool,
      osGenerateVideo .openai oB aB prompt model size (some d) none = .ok r ∧
      r.1.body.seconds = none ∧ r.2.2 = true) ∧
    (∃ r : GenRequest × Bool × Bool,
      osGenerateVideo .azure oB aB prompt model size (some d) none = .ok r ∧
      r.1.body.seconds = some (Json.asString d) ∧ r.2 = (false, false)) := by
  constructor
  · simp only [osGenerateVideo, if_neg hp, jsNullishCoalesce, jsValueOrNone, hnn,
      Bool.false_eq_true, if_false, if_neg hd]
    exact ⟨_, rfl, rfl, rfl⟩
  · simp only [osGenerateVideo, azureGenerateVideo, if_neg hp, jsNullishCoalesce,
      jsValueOrNone, hnn, Bool.false_eq_true, if_false]
    exact ⟨_, rfl, rfl, rfl⟩

/-- Closed witness for `duration_normalization_by_provider` at duration 5:
the openai body omits seconds (warning set), the azure body carries "5". -/
theorem duration_normalization_by_provider_witness :
    (∃ r : GenRequest × Bool × Bool,
      osGenerateVideo .openai "https://api.openai.com/v1" "https://e/openai" "a cat" "sora-2"
          none (some (Json.num 5)) none = .ok r ∧
      r.1.body.seconds = none ∧ r.2.2 = true) ∧
    (∃ r : GenRequest × Bool × Bool,
      osGenerateVideo .azure "https://api.openai.com/v1" "https://e/openai" "a cat" "sora-2"
          none (some (Json.num 5)) none = .ok r ∧
      r.1.body.seconds = some (Json.asString (Json.num 5)) ∧ r.2 = (false, false)) :=
  duration_normalization_by_provider "https://api.openai.com/v1" "https://e/openai" "a cat"
    "sora-2" none (Json.num 5) (by decide) rfl (by decide)

/-- C6 counterexample: a generate request routed to the azure provider with
the unsupported model gpt-4o is sent upstream unchanged (and no substitution
is logged), refuting the claim that every resolved provider replaces
unsupported models with sora-2. -/
theorem unsupported_model_sent_to_azure_counterexample :
    (osGenerateVideo .azure "https://api.openai.com/v1" "https://e/openai" "a cat" "gpt-4o"
        none none none =
      .ok ({ url := "https://e/openai" ++ "/v1/videos",
             body := { prompt := "a cat", model := "gpt-4o", size := none, seconds := none } },
           false, false)) ∧
    ("gpt-4o" : String) ∉ (["sora-2", "sora-2-pro"] : List String) :=
  ⟨rfl, by decide⟩

/-- C6 amended: on the openai path, a model in {sora-2, sora-2-pro} is sent
unchanged without warning and any other non-empty model is replaced with
sora-2 with the substitution logged, never an error; on the azure path the
trimmed model is sent as provided whenever non-blank (no substitution, no
log), and sora-2 is used only when the model is blank. -/
theorem model_normalization_by_provider (oB aB prompt model : String) (size : Option String)
    (hp : jsTrim prompt ≠ "") :
    (model ∈ (["sora-2", "sora-2-pro"] : List String) → model ≠ "" →
      ∃ r : GenRequest × Bool × Bool,
        osGenerateVideo .openai oB aB prompt model size none none = .ok r ∧
        r.1.body.model = model ∧ r.2.1 = false) ∧
    (model ∉ (["sora-2", "sora-2-pro"] : List String) → model ≠ "" →
      ∃ r : GenRequest × Bool × Bool,
        osGenerateVideo .openai oB aB prompt model size none none = .ok r ∧
        r.1.body.model = "sora-2" ∧ r.2.1 = true) ∧
    (jsTrim model ≠ "" →
      ∃ r : GenRequest × Bool × Bool,
        osGenerateVideo .azure oB aB prompt model size none none = .ok r ∧
        r.1.body.model = jsTrim model ∧ r.2 = (false, false)) ∧
    (jsTrim model = "" →
      ∃ r : GenRequest × Bool × Bool,
        osGenerateVideo .azure oB aB prompt model size none none = .ok r ∧
        r.1.body.model = "sora-2" ∧ r.2 = (false, false)) := by
  refine ⟨?_, ?_, ?_, ?_⟩
  · intro hm hne
    simp only [osGenerateVideo, if_neg hp, normalizeModel, if_pos (And.intro hne hm)]
    exact ⟨_, rfl, rfl, rfl⟩
  · intro hm hne
    have hneg : ¬ (model ≠ "" ∧ model ∈ (["sora-2", "sora-2-pro"] : List String)) := by
      intro h
      exact hm h.2
    simp only [osGenerateVideo, if_neg hp, normalizeModel, if_neg hneg,
      if_pos (And.intro hne hm)]
    exact ⟨_, rfl, rfl, rfl⟩
  · intro hm
    simp only [osGenerateVideo, azureGenerateVideo, if_neg hp, if_pos hm]
    exact ⟨_, rfl, rfl, rfl⟩
  · intro hm
    have hneg : ¬ jsTrim model ≠ "" := not_not_intro hm
    simp only [osGenerateVideo, azureGenerateVideo, if_neg hp, if_neg hneg]
    exact ⟨_, rfl, rfl, rfl⟩

/-- Closed witness for `model_normalization_by_provider`: the unsupported
model gpt-4o is replaced with sora-2 (and logged) on the openai path but
sent unchanged on the azure path. -/
theorem model_normalization_by_provider_witness :
    (∃ r : GenRequest × Bool × Bool,
      osGenerateVideo .openai "https://api.openai.com/v1" "https://e/openai" "a cat" "gpt-4o"
          none none none = .ok r ∧
      r.1.body.model = "sora-2" ∧ r.2.1 = true) ∧
    (∃ r : GenRequest × Bool × Bool,
      osGenerateVideo .azure "https://api.openai.com/v1" "https://e/openai" "a cat" "gpt-4o"
          none none none = .ok r ∧
      r.1.body.model = jsTrim "gpt-4o" ∧ r.2 = (false, false)) :=
  ⟨(model_normalization_by_provider "https://api.openai.com/v1" "https://e/openai" "a cat"
      "gpt-4o" none (by decide)).2.1 (by decide) (by decide),
   (model_normalization_by_provider "https://api.openai.com/v1" "https://e/openai" "a cat"
      "gpt-4o" none (by decide)).2.2.1 (by decide)⟩

/-- C8: a generateVideo call whose prompt is missing, empty or
whitespace-only after trim is rejected with the validation error before any
upstream request is constructed (an `.error` result carries no request), on
the broker for both providers and on the Azure provider's own entry. -/
theorem blank_prompt_rejected_before_upstream (provider : Provider)
    (oB aB prompt model : String) (size : Option String)
    (duration seconds : Option Json) (hp : jsTrim prompt = "") :
    osGenerateVideo provider oB aB prompt model size duration seconds =
      .error "'prompt' is required" ∧
    azureGenerateVideo prompt model size duration seconds aB =
      .error "'prompt' is required" := by
  constructor
  · simp [osGenerateVideo, hp]
  · simp [azureGenerateVideo, hp]

/-- Closed witness for `blank_prompt_rejected_before_upstream` on a
whitespace-only prompt routed to azure. -/
theorem blank_prompt_rejected_before_upstream_witness :
    osGenerateVideo .azure "https://api.openai.com/v1" "https://e/openai" "   " "sora-2"
        none none none = .error "'prompt' is required" ∧
    azureGenerateVideo "   " "sora-2" none none none "https://e/openai" =
      .error "'prompt' is required" :=
  blank_prompt_rejected_before_upstream .azure "https://api.openai.com/v1" "https://e/openai"
    "   " "sora-2" none none none (by decide)

/-- C10: a generateVideoFromImage call dispatched to the azure provider with
a valid prompt and image always fails with the method-missing TypeError —
`generateVideoFromImage` is not among the methods the AzureVideoProvider
class defines — and, the result being an error, no upstream request is ever
issued; Azure image-reference generation can never succeed. -/
theorem azure_image_generation_always_fails (oB : String) (originalname : Option String)
    (prompt model : String) (size : Option String) (duration seconds : Option Json)
    (hp : jsTrim prompt ≠ "") :
    osGenerateVideoFromImage .azure oB true true originalname prompt model size
        duration seconds = .error (.methodMissing "generateVideoFromImage") ∧
    azureVideoProviderMethodNames.contains "generateVideoFromImage" = false := by
  constructor
  · simp [osGenerateVideoFromImage, hp]
  · decide

/-- Closed witness for `azure_image_generation_always_fails` on a concrete
valid request. -/
theorem azure_image_generation_always_fails_witness :
    osGenerateVideoFromImage .azure "https://api.openai.com/v1" true true
        (some "ref.png") "a cat" "sora-2" none none none =
      .error (.methodMissing "generateVideoFromImage") :=
  (azure_image_generation_always_fails "https://api.openai.com/v1" (some "ref.png")
    "a cat" "sora-2" none none none (by decide)).1

end SoraProxy
